import Mathlib

/-!
Shallow embedding of the goshawk RTS camera (`src/lib.rs`) over exact
rational arithmetic.  The `f32`/`f64` scalars of the source are modelled
as `ℚ`; the floating-point `cos`/`sin`/`sqrt` intrinsics (used by the
`glam` quaternion/vector operations) are abstracted into a `NumOps`
record so that every definition stays executable.  Quaternions are
represented by the yaw/pitch/roll angles from which the source
constructs them (`Quat::from_rotation_y`, `Quat::from_rotation_ypr`),
and applying a quaternion to a vector is the corresponding composition
of axis rotation matrices.
-/

namespace Goshawk

/-- Numeric operations of the `f32` runtime that have no exact rational
counterpart.  Theorems that depend on their semantics take pointwise
hypotheses (e.g. `ops.sqrt q * ops.sqrt q = q`). -/
structure NumOps where
  cos : ℚ → ℚ
  sin : ℚ → ℚ
  sqrt : ℚ → ℚ

/-- Mirror of `glam::Vec2`. -/
@[ext]
structure Vec2 where
  x : ℚ
  y : ℚ
deriving DecidableEq

/-- Mirror of `glam::Vec3`. -/
@[ext]
structure Vec3 where
  x : ℚ
  y : ℚ
  z : ℚ
deriving DecidableEq

def Vec2.zero : Vec2 := ⟨0, 0⟩

/-- Mirror of `Vec2::length_squared` (dot of the vector with itself). -/
def Vec2.length_squared (v : Vec2) : ℚ := v.x * v.x + v.y * v.y

/-- Mirror of `Vec2::normalize`: the vector scaled by the reciprocal of
its length, the length being `sqrt` of `length_squared`. -/
def Vec2.normalize (ops : NumOps) (v : Vec2) : Vec2 :=
  let len := ops.sqrt v.length_squared
  ⟨v.x / len, v.y / len⟩

def Vec2.smul (c : ℚ) (v : Vec2) : Vec2 := ⟨c * v.x, c * v.y⟩

def Vec3.zero : Vec3 := ⟨0, 0, 0⟩

def Vec3.unit_x : Vec3 := ⟨1, 0, 0⟩

def Vec3.unit_z : Vec3 := ⟨0, 0, 1⟩

def Vec3.add (u v : Vec3) : Vec3 := ⟨u.x + v.x, u.y + v.y, u.z + v.z⟩

def Vec3.sub (u v : Vec3) : Vec3 := ⟨u.x - v.x, u.y - v.y, u.z - v.z⟩

def Vec3.neg (v : Vec3) : Vec3 := ⟨-v.x, -v.y, -v.z⟩

def Vec3.smul (c : ℚ) (v : Vec3) : Vec3 := ⟨c * v.x, c * v.y, c * v.z⟩

/-- Rotation about the x axis by `θ`, as a matrix action on a vector. -/
def rot_x (ops : NumOps) (θ : ℚ) (v : Vec3) : Vec3 :=
  ⟨v.x, ops.cos θ * v.y - ops.sin θ * v.z, ops.sin θ * v.y + ops.cos θ * v.z⟩

/-- Rotation about the y axis by `θ`, as a matrix action on a vector. -/
def rot_y (ops : NumOps) (θ : ℚ) (v : Vec3) : Vec3 :=
  ⟨ops.cos θ * v.x + ops.sin θ * v.z, v.y, -(ops.sin θ) * v.x + ops.cos θ * v.z⟩

/-- Rotation about the z axis by `θ`, as a matrix action on a vector. -/
def rot_z (ops : NumOps) (θ : ℚ) (v : Vec3) : Vec3 :=
  ⟨ops.cos θ * v.x - ops.sin θ * v.y, ops.sin θ * v.x + ops.cos θ * v.y, v.z⟩

/-- Mirror of `glam::Quat`, represented by the yaw/pitch/roll angles
from which the source constructs every quaternion it uses. -/
structure Quat where
  yaw : ℚ
  pitch : ℚ
  roll : ℚ
deriving DecidableEq

/-- Mirror of `Quat::from_rotation_y`. -/
def Quat.from_rotation_y (θ : ℚ) : Quat := ⟨θ, 0, 0⟩

/-- Mirror of `Quat::from_rotation_ypr` (yaw about y, pitch about x,
roll about z). -/
def Quat.from_rotation_ypr (yaw pitch roll : ℚ) : Quat := ⟨yaw, pitch, roll⟩

/-- Mirror of `Quat::default` (the identity rotation). -/
def Quat.identity : Quat := ⟨0, 0, 0⟩

/-- Applying a quaternion to a vector: `from_rotation_ypr(y,p,r)` acts
as the matrix product `Ry(y) * Rx(p) * Rz(r)`. -/
def Quat.mul_vec3 (ops : NumOps) (q : Quat) (v : Vec3) : Vec3 :=
  rot_y ops q.yaw (rot_x ops q.pitch (rot_z ops q.roll v))

/-- Mirror of `std::ops::RangeInclusive<f32>`.  The source's `end()` is
`stop` here because `end` is reserved in Lean. -/
structure RangeInclusive where
  start : ℚ
  stop : ℚ
deriving DecidableEq

/-- Mirror of the free function `clamp` (src lines 422-431). -/
def clamp (x : ℚ) (range : RangeInclusive) : ℚ :=
  if x > range.stop then range.stop
  else if x < range.start then range.start
  else x

/-- Mirror of the free function `lerp_in_zone` (src lines 433-438). -/
def lerp_in_zone (val : ℚ) (zone : RangeInclusive) (values : RangeInclusive) : ℚ :=
  let in_zone := clamp val zone
  let normalised := (in_zone - zone.start) / (zone.stop - zone.start)
  normalised * (values.stop - values.start) + values.start

/-- The exact value of the `f32` constant `std::f32::consts::TAU`. -/
def TAU : ℚ := 13176795 / 2097152

/-- Mirror of `SCROLL_TICK_GRACE_SECS` (src line 9). -/
def SCROLL_TICK_GRACE_SECS : ℚ := 5 / 100

/-- The key codes the default settings mention. -/
inductive KeyCode where
  | Equals
  | NumpadAdd
  | NumpadSubtract
  | Minus
  | Left
  | A
  | Right
  | D
  | Up
  | W
  | Down
  | S
  | Q
  | E

/-- Mirror of `bevy::Window`, reduced to the fields the system reads:
dimensions and the (possibly absent) cursor position. -/
structure Window where
  width : ℚ
  height : ℚ
  cursor_position : Option Vec2

/-- Mirror of `bevy::Time`, reduced to the two clocks the system reads. -/
structure Time where
  delta_seconds : ℚ
  seconds_since_startup : ℚ

/-- Mirror of `Transform` as produced by `camera_transform`:
`Mat4::from_rotation_translation` followed by `Transform::from_matrix`
carries exactly a rotation and a translation. -/
structure Transform where
  rotation : Quat
  translation : Vec3
deriving DecidableEq

/-- Mirror of `RtsCamera` (src lines 43-64).  The
`cursor_scroll_event_reader` field is host-integration state (an event
cursor); its effect — the latest unread scroll amount — is passed to
`tick` directly as `Option ℚ`. -/
structure RtsCamera where
  looking_at : Vec3
  rotation : Quat
  yaw : ℚ
  zoom_velocity : ℚ
  pan_velocity : Vec2
  turn_velocity : ℚ
  last_scroll_sec : ℚ
  zoom_distance : ℚ
deriving DecidableEq

/-- Mirror of `RtsCamera::default` (src lines 66-80). -/
def RtsCamera.default : RtsCamera :=
  { looking_at := Vec3.zero
    rotation := Quat.identity
    yaw := 0
    zoom_velocity := 0
    pan_velocity := Vec2.zero
    turn_velocity := 0
    last_scroll_sec := 0
    zoom_distance := 10 }

/-- Mirror of `ZoomSettings` (src lines 239-271). -/
structure ZoomSettings where
  angle_range : RangeInclusive
  angle_change_zone : RangeInclusive
  distance_range : RangeInclusive
  velocity : ℚ
  max_velocity : ℚ
  scroll_accel : ℚ
  keyboard_accel : ℚ
  idle_deceleration : ℚ
  zoom_in_keys : List KeyCode
  zoom_out_keys : List KeyCode

/-- Mirror of `ZoomSettings::new` (src lines 273-288). -/
def ZoomSettings.new : ZoomSettings :=
  { angle_range := ⟨0.5705693, 1.1637539⟩
    angle_change_zone := ⟨5, 100⟩
    distance_range := ⟨5, 100⟩
    velocity := 0
    max_velocity := 5
    scroll_accel := 5
    keyboard_accel := 5
    idle_deceleration := 5
    zoom_in_keys := [KeyCode.Equals, KeyCode.NumpadAdd]
    zoom_out_keys := [KeyCode.NumpadSubtract, KeyCode.Minus] }

/-- Mirror of `PanSettings` (src lines 294-322). -/
structure PanSettings where
  mouse_accel : ℚ
  mouse_accel_margin : ℚ
  keyboard_accel : ℚ
  max_speed : ℚ
  idle_deceleration : ℚ
  pan_speed_zoom_factor_range : RangeInclusive
  left_keys : List KeyCode
  right_keys : List KeyCode
  up_keys : List KeyCode
  down_keys : List KeyCode

/-- Mirror of `PanSettings::new` (src lines 324-338). -/
def PanSettings.new : PanSettings :=
  { mouse_accel := 15
    mouse_accel_margin := 10
    keyboard_accel := 5
    max_speed := 5
    idle_deceleration := 17.5
    pan_speed_zoom_factor_range := ⟨1, 2⟩
    left_keys := [KeyCode.Left, KeyCode.A]
    right_keys := [KeyCode.Right, KeyCode.D]
    up_keys := [KeyCode.Up, KeyCode.W]
    down_keys := [KeyCode.Down, KeyCode.S] }

/-- Mirror of `TurnSettings` (src lines 345-364). -/
structure TurnSettings where
  mouse_turn_margin : ℚ
  yaw_range : RangeInclusive
  mouse_accel : ℚ
  keyboard_accel : ℚ
  max_speed : ℚ
  idle_deceleration : ℚ
  left_keys : List KeyCode
  right_keys : List KeyCode

/-- Mirror of `TurnSettings::new` (src lines 366-379). -/
def TurnSettings.new : TurnSettings :=
  { mouse_turn_margin := 0.25
    yaw_range := ⟨0, TAU⟩
    mouse_accel := 0.3
    keyboard_accel := 1.8
    max_speed := 1.5
    idle_deceleration := 5
    left_keys := [KeyCode.Q]
    right_keys := [KeyCode.E] }

/-- Mirror of `Deceleration` (src lines 385-397): which directions of
motion the idle deceleration may act against this frame. -/
structure Deceleration where
  pos : Bool
  neg : Bool
deriving DecidableEq

/-- Mirror of `f32::signum` on the nonzero inputs `Deceleration::apply`
feeds it (the source guards `velocity == 0.0` before calling it). -/
def signum (v : ℚ) : ℚ := if v < 0 then -1 else 1

/-- Mirror of `Deceleration::apply` (src lines 399-420), returning the
new velocity instead of mutating it. -/
def Deceleration.apply (d : Deceleration) (velocity magnitude delta : ℚ) : ℚ :=
  if velocity = 0 then velocity
  else
    match (if d.pos && d.neg then some (-(signum velocity))
           else if d.pos then some (-1 : ℚ)
           else if d.neg then some (1 : ℚ)
           else none) with
    | none => velocity
    | some s =>
      let max_decel := magnitude * delta
      let decel_magnitude := min |max_decel| |velocity|
      velocity + decel_magnitude * s

/-- Result of the input-accumulation phase of `tick` (src lines
120-203): the camera with updated velocities and scroll timestamp, plus
the four per-axis deceleration flag pairs. -/
structure Accum where
  st : RtsCamera
  x_decel : Deceleration
  y_decel : Deceleration
  turn_decel : Deceleration
  zoom_decel : Deceleration

/-- Input accumulation (src lines 120-203): mouse-edge zones, keyboard
bindings and the scroll wheel adjust the velocities and clear
deceleration flags; the zoom flags are pre-seeded from the scroll grace
window. -/
def accumulate (scroll : Option ℚ) (cursor : Vec2) (window : Window)
    (keyboard : KeyCode → Bool) (zoom : ZoomSettings) (pan : PanSettings)
    (turn : TurnSettings) (delta now : ℚ) (st : RtsCamera) : Accum :=
  let zoom_decel_init : Deceleration :=
    if now - st.last_scroll_sec < SCROLL_TICK_GRACE_SECS then ⟨false, false⟩
    else ⟨true, true⟩
  -- src lines 128-144: horizontal mouse margin, split between turn and pan
  let mouse_x : ℚ × ℚ × Deceleration × Deceleration :=
    if cursor.x < pan.mouse_accel_margin then
      if cursor.y > window.height * (1 - turn.mouse_turn_margin) then
        (st.turn_velocity + turn.mouse_accel * delta, st.pan_velocity.x,
          ⟨false, true⟩, ⟨true, true⟩)
      else
        (st.turn_velocity, st.pan_velocity.x - pan.mouse_accel * delta,
          ⟨true, true⟩, ⟨true, false⟩)
    else if cursor.x > window.width - pan.mouse_accel_margin then
      if cursor.y > window.height * (1 - turn.mouse_turn_margin) then
        (st.turn_velocity - turn.mouse_accel * delta, st.pan_velocity.x,
          ⟨true, false⟩, ⟨true, true⟩)
      else
        (st.turn_velocity, st.pan_velocity.x + pan.mouse_accel * delta,
          ⟨true, true⟩, ⟨false, true⟩)
    else (st.turn_velocity, st.pan_velocity.x, ⟨true, true⟩, ⟨true, true⟩)
  let tv0 := mouse_x.1
  let pvx0 := mouse_x.2.1
  let turn_d0 := mouse_x.2.2.1
  let x_d0 := mouse_x.2.2.2
  -- src lines 146-152: vertical mouse margin, pan only
  let mouse_y : ℚ × Deceleration :=
    if cursor.y < pan.mouse_accel_margin then
      (st.pan_velocity.y - pan.mouse_accel * delta, ⟨true, false⟩)
    else if cursor.y > window.height - pan.mouse_accel_margin then
      (st.pan_velocity.y + pan.mouse_accel * delta, ⟨false, true⟩)
    else (st.pan_velocity.y, ⟨true, true⟩)
  let pvy0 := mouse_y.1
  let y_d0 := mouse_y.2
  -- src lines 154-172: keyboard pan
  let pvx1 := if pan.right_keys.any keyboard then pvx0 + pan.keyboard_accel * delta else pvx0
  let x_d1 := if pan.right_keys.any keyboard then { x_d0 with pos := false } else x_d0
  let pvx2 := if pan.left_keys.any keyboard then pvx1 + (-pan.keyboard_accel) * delta else pvx1
  let x_d2 := if pan.left_keys.any keyboard then { x_d1 with neg := false } else x_d1
  let pvy1 := if pan.up_keys.any keyboard then pvy0 + pan.keyboard_accel * delta else pvy0
  let y_d1 := if pan.up_keys.any keyboard then { y_d0 with pos := false } else y_d0
  let pvy2 := if pan.down_keys.any keyboard then pvy1 + (-pan.keyboard_accel) * delta else pvy1
  let y_d2 := if pan.down_keys.any keyboard then { y_d1 with neg := false } else y_d1
  -- src lines 174-182: keyboard turn
  let tv1 := if turn.right_keys.any keyboard then tv0 - turn.keyboard_accel * delta else tv0
  let turn_d1 := if turn.right_keys.any keyboard then { turn_d0 with neg := false } else turn_d0
  let tv2 := if turn.left_keys.any keyboard then tv1 + turn.keyboard_accel * delta else tv1
  let turn_d2 := if turn.left_keys.any keyboard then { turn_d1 with pos := false } else turn_d1
  -- src lines 184-193: scroll wheel (no delta-time scaling)
  let scroll_res : ℚ × ℚ × Deceleration :=
    match scroll with
    | some y =>
      (st.zoom_velocity - y * zoom.scroll_accel, now,
        if y > 0 then { zoom_decel_init with pos := false }
        else { zoom_decel_init with neg := false })
    | none => (st.zoom_velocity, st.last_scroll_sec, zoom_decel_init)
  let zv0 := scroll_res.1
  let last0 := scroll_res.2.1
  let z_d0 := scroll_res.2.2
  -- src lines 195-203: keyboard zoom
  let zv1 := if zoom.zoom_in_keys.any keyboard then zv0 - zoom.keyboard_accel * delta else zv0
  let z_d1 := if zoom.zoom_in_keys.any keyboard then { z_d0 with pos := false } else z_d0
  let zv2 := if zoom.zoom_out_keys.any keyboard then zv1 + zoom.keyboard_accel * delta else zv1
  let z_d2 := if zoom.zoom_out_keys.any keyboard then { z_d1 with neg := false } else z_d1
  { st := { st with
      turn_velocity := tv2
      pan_velocity := ⟨pvx2, pvy2⟩
      zoom_velocity := zv2
      last_scroll_sec := last0 }
    x_decel := x_d2
    y_decel := y_d2
    turn_decel := turn_d2
    zoom_decel := z_d2 }

/-- Deceleration application phase of `tick` (src lines 205-209). -/
def apply_deceleration (zoom : ZoomSettings) (pan : PanSettings)
    (turn : TurnSettings) (delta : ℚ) (a : Accum) : RtsCamera :=
  { a.st with
    turn_velocity := a.turn_decel.apply a.st.turn_velocity turn.idle_deceleration delta
    zoom_velocity := a.zoom_decel.apply a.st.zoom_velocity zoom.idle_deceleration delta
    pan_velocity := ⟨a.x_decel.apply a.st.pan_velocity.x pan.idle_deceleration delta,
                     a.y_decel.apply a.st.pan_velocity.y pan.idle_deceleration delta⟩ }

/-- Pan-velocity cap of `tick` (src lines 212-214): rescale to
`max_speed` only when the squared length exceeds `max_speed²`. -/
def clamp_pan_velocity (ops : NumOps) (pan : PanSettings) (v : Vec2) : Vec2 :=
  if v.length_squared > pan.max_speed * pan.max_speed then
    Vec2.smul pan.max_speed (Vec2.normalize ops v)
  else v

/-- Velocity-clamping phase of `tick` (src lines 211-217). -/
def clamp_velocities (ops : NumOps) (zoom : ZoomSettings) (pan : PanSettings)
    (turn : TurnSettings) (st : RtsCamera) : RtsCamera :=
  { st with
    pan_velocity := clamp_pan_velocity ops pan st.pan_velocity
    zoom_velocity := min st.zoom_velocity zoom.max_velocity
    turn_velocity := clamp st.turn_velocity ⟨-turn.max_speed, turn.max_speed⟩ }

/-- Zoom integration phase of `tick` (src lines 219-221). -/
def apply_zoom (zoom : ZoomSettings) (delta : ℚ) (st : RtsCamera) : RtsCamera :=
  { st with zoom_distance := clamp (st.zoom_distance + st.zoom_velocity * delta) zoom.distance_range }

/-- Mirror of `RtsCamera::camera_translation` (src lines 83-85). -/
def camera_translation (ops : NumOps) (st : RtsCamera) : Vec3 :=
  Vec3.add st.looking_at (Quat.mul_vec3 ops st.rotation ⟨0, 0, st.zoom_distance⟩)

/-- Mirror of `RtsCamera::camera_transform` (src lines 87-90). -/
def camera_transform (ops : NumOps) (st : RtsCamera) : Transform :=
  ⟨st.rotation, camera_translation ops st⟩

/-- The yaw adjustment of `RtsCamera::rotate` (src lines 93-101): one
conditional subtraction of `TAU`, then one conditional addition. -/
def wrap_yaw (yaw1 : ℚ) : ℚ :=
  let yaw2 := if yaw1 > TAU then yaw1 - TAU else yaw1
  if yaw2 < 0 then yaw2 + TAU else yaw2

/-- Mirror of `RtsCamera::rotate` (src lines 92-106): add the angle to
the yaw, wrap by one full turn if the sum leaves `[0, TAU]`, then
rotate the focus point around the camera's eye point. -/
def rotate (ops : NumOps) (angle : ℚ) (st : RtsCamera) : RtsCamera :=
  let st1 := { st with yaw := wrap_yaw (st.yaw + angle) }
  let rotation_y := Quat.from_rotation_y angle
  let ct := camera_translation ops st1
  { st1 with looking_at := Vec3.add (Quat.mul_vec3 ops rotation_y (Vec3.sub st1.looking_at ct)) ct }

/-- Turn integration phase of `tick` (src lines 223-225). -/
def apply_turn (ops : NumOps) (turn : TurnSettings) (delta : ℚ) (st : RtsCamera) : RtsCamera :=
  let st1 := rotate ops (st.turn_velocity * delta) st
  { st1 with yaw := clamp st1.yaw turn.yaw_range }

/-- Orientation recomputation phase of `tick` (src lines 227-229). -/
def update_orientation (zoom : ZoomSettings) (st : RtsCamera) : RtsCamera :=
  let pitch := lerp_in_zone st.zoom_distance zoom.angle_change_zone zoom.angle_range
  { st with rotation := Quat.from_rotation_ypr st.yaw (-pitch) 0 }

/-- Pan integration phase of `tick` (src lines 231-235). -/
def apply_pan (ops : NumOps) (zoom : ZoomSettings) (pan : PanSettings)
    (delta : ℚ) (st : RtsCamera) : RtsCamera :=
  let forward := Quat.from_rotation_y st.yaw
  let distance_factor := lerp_in_zone st.zoom_distance zoom.angle_range pan.pan_speed_zoom_factor_range
  let la1 := Vec3.add st.looking_at
    (Vec3.smul distance_factor (Quat.mul_vec3 ops forward (Vec3.smul delta (Vec3.smul st.pan_velocity.x Vec3.unit_x))))
  let la2 := Vec3.add la1
    (Vec3.smul distance_factor (Quat.mul_vec3 ops forward (Vec3.smul delta (Vec3.smul st.pan_velocity.y (Vec3.neg Vec3.unit_z)))))
  { st with looking_at := la2 }

/-- The first half of `RtsCamera::tick` (src lines 120-209): input
accumulation followed by the idle-deceleration pass. -/
def post_decel (scroll : Option ℚ) (cursor : Vec2) (window : Window)
    (keyboard : KeyCode → Bool) (zoom : ZoomSettings) (pan : PanSettings)
    (turn : TurnSettings) (time : Time) (st : RtsCamera) : RtsCamera :=
  apply_deceleration zoom pan turn time.delta_seconds
    (accumulate scroll cursor window keyboard zoom pan turn
      time.delta_seconds time.seconds_since_startup st)

/-- All of `RtsCamera::tick` except the final pan integration. -/
def tick_before_pan (ops : NumOps) (scroll : Option ℚ) (cursor : Vec2)
    (window : Window) (keyboard : KeyCode → Bool) (zoom : ZoomSettings)
    (pan : PanSettings) (turn : TurnSettings) (time : Time) (st : RtsCamera) : RtsCamera :=
  update_orientation zoom
    (apply_turn ops turn time.delta_seconds
      (apply_zoom zoom time.delta_seconds
        (clamp_velocities ops zoom pan turn
          (post_decel scroll cursor window keyboard zoom pan turn time st))))

/-- Mirror of `RtsCamera::tick` (src lines 108-236). -/
def tick (ops : NumOps) (scroll : Option ℚ) (cursor : Vec2)
    (window : Window) (keyboard : KeyCode → Bool) (zoom : ZoomSettings)
    (pan : PanSettings) (turn : TurnSettings) (time : Time) (st : RtsCamera) : RtsCamera :=
  apply_pan ops zoom pan time.delta_seconds
    (tick_before_pan ops scroll cursor window keyboard zoom pan turn time st)

/-- Mirror of one camera's pass through `rts_camera_system` (src lines
12-40): `none` marks the `unwrap` on a missing primary window; an
absent cursor skips the update, leaving state and transform as they
were; otherwise `tick` runs and the transform is recomputed. -/
def rts_camera_system_step (ops : NumOps) (time : Time) (window : Option Window)
    (scroll : Option ℚ) (keyboard : KeyCode → Bool)
    (zoom_s : Option ZoomSettings) (pan_s : Option PanSettings)
    (turn_s : Option TurnSettings) (st : RtsCamera) (tr : Transform) :
    Option (RtsCamera × Transform) :=
  match window with
  | none => none
  | some w =>
    match w.cursor_position with
    | none => some (st, tr)
    | some cursor =>
      let zoom := zoom_s.getD ZoomSettings.new
      let pan := pan_s.getD PanSettings.new
      let turn := turn_s.getD TurnSettings.new
      let st1 := tick ops scroll cursor w keyboard zoom pan turn time st
      some (st1, camera_transform ops st1)

/-! ## Concrete fixtures used by witnesses and counterexamples -/

/-- Concrete stand-in for the floating-point intrinsics: `cos` constantly
`1`, `sin` constantly `0`, `sqrt` constantly `0`.  The theorems that
depend on trigonometric or square-root semantics take pointwise
hypotheses, which the witnesses discharge at this instance. -/
def ops1 : NumOps := ⟨fun _ => 1, fun _ => 0, fun _ => 0⟩

/-- A keyboard with no key pressed. -/
def kbNone : KeyCode → Bool := fun _ => false

/-- An 800x600 window with the cursor near the middle. -/
def winC : Window := ⟨800, 600, some ⟨100, 100⟩⟩

/-- A 10ms frame, one second after startup. -/
def timeC : Time := ⟨1 / 100, 1⟩

/-- The default camera with its yaw at exactly `TAU`. -/
def camTau : RtsCamera := { RtsCamera.default with yaw := TAU }

/-- The default camera with its yaw at `3 * TAU`. -/
def cam3Tau : RtsCamera := { RtsCamera.default with yaw := 3 * TAU }

/-- The default camera with its yaw at `6`. -/
def cam6 : RtsCamera := { RtsCamera.default with yaw := 6 }

/-- The default camera at zoom distance 50. -/
def cam50 : RtsCamera := { RtsCamera.default with zoom_distance := 50 }

/-- The default camera zooming inward at velocity `-3`. -/
def camNeg3 : RtsCamera := { RtsCamera.default with zoom_velocity := -3 }

/-- The default camera whose last scroll event was at `0.98s`. -/
def camScroll : RtsCamera := { RtsCamera.default with last_scroll_sec := 98 / 100 }

/-- The default zoom settings with the angle range of the spec's pitch
scenario. -/
def zoomC6 : ZoomSettings := { ZoomSettings.new with angle_range := ⟨0.57, 1.16⟩ }

/-! ## Field-tracking lemmas for the stages of `tick` -/

@[simp]
theorem accumulate_st_yaw (scroll cursor window keyboard zoom pan turn delta now st) :
    (accumulate scroll cursor window keyboard zoom pan turn delta now st).st.yaw = st.yaw := rfl

@[simp]
theorem accumulate_st_zoom_distance (scroll cursor window keyboard zoom pan turn delta now st) :
    (accumulate scroll cursor window keyboard zoom pan turn delta now st).st.zoom_distance
      = st.zoom_distance := rfl

@[simp]
theorem accumulate_st_looking_at (scroll cursor window keyboard zoom pan turn delta now st) :
    (accumulate scroll cursor window keyboard zoom pan turn delta now st).st.looking_at
      = st.looking_at := rfl

@[simp]
theorem accumulate_st_rotation (scroll cursor window keyboard zoom pan turn delta now st) :
    (accumulate scroll cursor window keyboard zoom pan turn delta now st).st.rotation
      = st.rotation := rfl

@[simp]
theorem apply_deceleration_yaw (zoom pan turn delta a) :
    (apply_deceleration zoom pan turn delta a).yaw = a.st.yaw := rfl

@[simp]
theorem apply_deceleration_zoom_distance (zoom pan turn delta a) :
    (apply_deceleration zoom pan turn delta a).zoom_distance = a.st.zoom_distance := rfl

@[simp]
theorem apply_deceleration_looking_at (zoom pan turn delta a) :
    (apply_deceleration zoom pan turn delta a).looking_at = a.st.looking_at := rfl

@[simp]
theorem apply_deceleration_rotation (zoom pan turn delta a) :
    (apply_deceleration zoom pan turn delta a).rotation = a.st.rotation := rfl

@[simp]
theorem apply_deceleration_zoom_velocity (zoom pan turn delta a) :
    (apply_deceleration zoom pan turn delta a).zoom_velocity
      = a.zoom_decel.apply a.st.zoom_velocity zoom.idle_deceleration delta := rfl

@[simp]
theorem apply_deceleration_turn_velocity (zoom pan turn delta a) :
    (apply_deceleration zoom pan turn delta a).turn_velocity
      = a.turn_decel.apply a.st.turn_velocity turn.idle_deceleration delta := rfl

@[simp]
theorem post_decel_yaw (scroll cursor window keyboard zoom pan turn time st) :
    (post_decel scroll cursor window keyboard zoom pan turn time st).yaw = st.yaw := rfl

@[simp]
theorem post_decel_zoom_distance (scroll cursor window keyboard zoom pan turn time st) :
    (post_decel scroll cursor window keyboard zoom pan turn time st).zoom_distance
      = st.zoom_distance := rfl

@[simp]
theorem clamp_velocities_yaw (ops zoom pan turn st) :
    (clamp_velocities ops zoom pan turn st).yaw = st.yaw := rfl

@[simp]
theorem clamp_velocities_zoom_distance (ops zoom pan turn st) :
    (clamp_velocities ops zoom pan turn st).zoom_distance = st.zoom_distance := rfl

@[simp]
theorem clamp_velocities_looking_at (ops zoom pan turn st) :
    (clamp_velocities ops zoom pan turn st).looking_at = st.looking_at := rfl

@[simp]
theorem clamp_velocities_zoom_velocity (ops zoom pan turn st) :
    (clamp_velocities ops zoom pan turn st).zoom_velocity
      = min st.zoom_velocity zoom.max_velocity := rfl

@[simp]
theorem clamp_velocities_turn_velocity (ops zoom pan turn st) :
    (clamp_velocities ops zoom pan turn st).turn_velocity
      = clamp st.turn_velocity ⟨-turn.max_speed, turn.max_speed⟩ := rfl

@[simp]
theorem clamp_velocities_pan_velocity (ops zoom pan turn st) :
    (clamp_velocities ops zoom pan turn st).pan_velocity
      = clamp_pan_velocity ops pan st.pan_velocity := rfl

@[simp]
theorem apply_zoom_yaw (zoom delta st) : (apply_zoom zoom delta st).yaw = st.yaw := rfl

@[simp]
theorem apply_zoom_zoom_velocity (zoom delta st) :
    (apply_zoom zoom delta st).zoom_velocity = st.zoom_velocity := rfl

@[simp]
theorem apply_zoom_turn_velocity (zoom delta st) :
    (apply_zoom zoom delta st).turn_velocity = st.turn_velocity := rfl

@[simp]
theorem apply_zoom_pan_velocity (zoom delta st) :
    (apply_zoom zoom delta st).pan_velocity = st.pan_velocity := rfl

@[simp]
theorem apply_zoom_zoom_distance (zoom delta st) :
    (apply_zoom zoom delta st).zoom_distance
      = clamp (st.zoom_distance + st.zoom_velocity * delta) zoom.distance_range := rfl

@[simp]
theorem rotate_yaw (ops angle st) : (rotate ops angle st).yaw = wrap_yaw (st.yaw + angle) := rfl

@[simp]
theorem rotate_zoom_velocity (ops angle st) :
    (rotate ops angle st).zoom_velocity = st.zoom_velocity := rfl

@[simp]
theorem rotate_turn_velocity (ops angle st) :
    (rotate ops angle st).turn_velocity = st.turn_velocity := rfl

@[simp]
theorem rotate_pan_velocity (ops angle st) :
    (rotate ops angle st).pan_velocity = st.pan_velocity := rfl

@[simp]
theorem rotate_zoom_distance (ops angle st) :
    (rotate ops angle st).zoom_distance = st.zoom_distance := rfl

@[simp]
theorem rotate_rotation (ops angle st) : (rotate ops angle st).rotation = st.rotation := rfl

@[simp]
theorem apply_turn_yaw (ops turn delta st) :
    (apply_turn ops turn delta st).yaw
      = clamp (wrap_yaw (st.yaw + st.turn_velocity * delta)) turn.yaw_range := rfl

@[simp]
theorem apply_turn_zoom_velocity (ops turn delta st) :
    (apply_turn ops turn delta st).zoom_velocity = st.zoom_velocity := rfl

@[simp]
theorem apply_turn_turn_velocity (ops turn delta st) :
    (apply_turn ops turn delta st).turn_velocity = st.turn_velocity := rfl

@[simp]
theorem apply_turn_pan_velocity (ops turn delta st) :
    (apply_turn ops turn delta st).pan_velocity = st.pan_velocity := rfl

@[simp]
theorem apply_turn_zoom_distance (ops turn delta st) :
    (apply_turn ops turn delta st).zoom_distance = st.zoom_distance := rfl

@[simp]
theorem update_orientation_yaw (zoom st) : (update_orientation zoom st).yaw = st.yaw := rfl

@[simp]
theorem update_orientation_zoom_velocity (zoom st) :
    (update_orientation zoom st).zoom_velocity = st.zoom_velocity := rfl

@[simp]
theorem update_orientation_turn_velocity (zoom st) :
    (update_orientation zoom st).turn_velocity = st.turn_velocity := rfl

@[simp]
theorem update_orientation_pan_velocity (zoom st) :
    (update_orientation zoom st).pan_velocity = st.pan_velocity := rfl

@[simp]
theorem update_orientation_zoom_distance (zoom st) :
    (update_orientation zoom st).zoom_distance = st.zoom_distance := rfl

@[simp]
theorem update_orientation_looking_at (zoom st) :
    (update_orientation zoom st).looking_at = st.looking_at := rfl

@[simp]
theorem update_orientation_rotation (zoom st) :
    (update_orientation zoom st).rotation
      = Quat.from_rotation_ypr st.yaw
          (-(lerp_in_zone st.zoom_distance zoom.angle_change_zone zoom.angle_range)) 0 := rfl

@[simp]
theorem apply_pan_yaw (ops zoom pan delta st) : (apply_pan ops zoom pan delta st).yaw = st.yaw := rfl

@[simp]
theorem apply_pan_zoom_velocity (ops zoom pan delta st) :
    (apply_pan ops zoom pan delta st).zoom_velocity = st.zoom_velocity := rfl

@[simp]
theorem apply_pan_turn_velocity (ops zoom pan delta st) :
    (apply_pan ops zoom pan delta st).turn_velocity = st.turn_velocity := rfl

@[simp]
theorem apply_pan_pan_velocity (ops zoom pan delta st) :
    (apply_pan ops zoom pan delta st).pan_velocity = st.pan_velocity := rfl

@[simp]
theorem apply_pan_zoom_distance (ops zoom pan delta st) :
    (apply_pan ops zoom pan delta st).zoom_distance = st.zoom_distance := rfl

@[simp]
theorem apply_pan_rotation (ops zoom pan delta st) :
    (apply_pan ops zoom pan delta st).rotation = st.rotation := rfl

/-! ## Arithmetic lemmas about the helpers -/

theorem clamp_mem (x : ℚ) (r : RangeInclusive) (h : r.start ≤ r.stop) :
    r.start ≤ clamp x r ∧ clamp x r ≤ r.stop := by
  unfold clamp
  split_ifs with h1 h2 <;> constructor <;> linarith

theorem abs_clamp_le (v m : ℚ) (hm : 0 ≤ m) :
    |clamp v ⟨-m, m⟩| ≤ m := by
  rw [abs_le]
  have := clamp_mem v ⟨-m, m⟩ (show -m ≤ m by linarith)
  exact ⟨this.1, this.2⟩

theorem tau_pos : (0 : ℚ) < TAU := by norm_num [TAU]

theorem wrap_yaw_mem (y : ℚ) (h1 : -TAU ≤ y) (h2 : y ≤ 2 * TAU) :
    0 ≤ wrap_yaw y ∧ wrap_yaw y ≤ TAU := by
  have ht := tau_pos
  simp only [wrap_yaw]
  split_ifs <;> constructor <;> linarith

theorem decel_apply_none (v mag delta : ℚ) :
    Deceleration.apply ⟨false, false⟩ v mag delta = v := by
  simp [Deceleration.apply]

theorem decel_apply_zero (d : Deceleration) (mag delta : ℚ) :
    Deceleration.apply d 0 mag delta = 0 := by
  unfold Deceleration.apply
  simp

theorem decel_apply_both (v mag delta : ℚ) (hv : v ≠ 0) :
    Deceleration.apply ⟨true, true⟩ v mag delta
      = v + min |mag * delta| |v| * (-(signum v)) := by
  unfold Deceleration.apply
  rw [if_neg hv]
  rfl

theorem decel_apply_pos_only (v mag delta : ℚ) (hv : v ≠ 0) :
    Deceleration.apply ⟨true, false⟩ v mag delta = v + min |mag * delta| |v| * (-1) := by
  unfold Deceleration.apply
  rw [if_neg hv]
  rfl

theorem decel_apply_neg_only (v mag delta : ℚ) (hv : v ≠ 0) :
    Deceleration.apply ⟨false, true⟩ v mag delta = v + min |mag * delta| |v| * 1 := by
  unfold Deceleration.apply
  rw [if_neg hv]
  rfl

theorem decel_both_pos (v mag delta : ℚ) (hv : 0 < v) :
    Deceleration.apply ⟨true, true⟩ v mag delta = v - min |mag * delta| |v| := by
  rw [decel_apply_both v mag delta (ne_of_gt hv)]
  unfold signum
  rw [if_neg (not_lt.mpr (le_of_lt hv))]
  ring

theorem decel_both_neg (v mag delta : ℚ) (hv : v < 0) :
    Deceleration.apply ⟨true, true⟩ v mag delta = v + min |mag * delta| |v| := by
  rw [decel_apply_both v mag delta (ne_of_lt hv)]
  unfold signum
  rw [if_pos hv]
  ring

theorem decel_both_abs (v mag delta : ℚ) (hv : v ≠ 0) :
    |Deceleration.apply ⟨true, true⟩ v mag delta| = |v| - min |mag * delta| |v| := by
  rcases lt_or_gt_of_ne hv with hneg | hpos
  · have h1 : |v| = -v := abs_of_neg hneg
    have h2 : min |mag * delta| |v| ≤ -v := le_trans (min_le_right _ _) (le_of_eq h1)
    rw [decel_both_neg v mag delta hneg, abs_of_nonpos (by linarith), h1]
    ring
  · have h1 : |v| = v := abs_of_pos hpos
    have h2 : min |mag * delta| |v| ≤ v := le_trans (min_le_right _ _) (le_of_eq h1)
    have h3 : 0 ≤ min |mag * delta| |v| := le_min (abs_nonneg _) (abs_nonneg _)
    rw [decel_both_pos v mag delta hpos, abs_of_nonneg (by linarith), h1]

theorem clamp_pan_velocity_lsq_le (ops : NumOps) (pan : PanSettings) (v : Vec2)
    (h : v.length_squared ≤ pan.max_speed * pan.max_speed ∨
         (0 < ops.sqrt v.length_squared ∧
          ops.sqrt v.length_squared * ops.sqrt v.length_squared = v.length_squared)) :
    (clamp_pan_velocity ops pan v).length_squared ≤ pan.max_speed * pan.max_speed := by
  unfold clamp_pan_velocity
  split_ifs with hgt
  · rcases h with h | ⟨hpos, hsq⟩
    · exact absurd hgt (not_lt.mpr h)
    · have hne : ops.sqrt v.length_squared ≠ 0 := ne_of_gt hpos
      have key : (Vec2.smul pan.max_speed (Vec2.normalize ops v)).length_squared
          = pan.max_speed * pan.max_speed := by
        simp only [Vec2.length_squared, Vec2.smul, Vec2.normalize] at *
        field_simp
        linear_combination (-(pan.max_speed * pan.max_speed)) * hsq
      rw [key]
  · exact not_lt.mp hgt

theorem mul_vec3_from_rotation_y (ops : NumOps) (θ : ℚ) (v : Vec3)
    (hc : ops.cos 0 = 1) (hs : ops.sin 0 = 0) :
    Quat.mul_vec3 ops (Quat.from_rotation_y θ) v = rot_y ops θ v := by
  simp [Quat.mul_vec3, Quat.from_rotation_y, rot_x, rot_z, hc, hs]

/-! ## Claim theorems -/

/-- C4: on a frame where the host reports the cursor position as absent,
the whole update is skipped: the camera state and the output transform
returned by the system pass are exactly the prior frame's values. -/
theorem missing_cursor_skips_update (ops : NumOps) (time : Time) (w : Window)
    (scroll : Option ℚ) (keyboard : KeyCode → Bool) (zoom_s : Option ZoomSettings)
    (pan_s : Option PanSettings) (turn_s : Option TurnSettings)
    (st : RtsCamera) (tr : Transform) (h : w.cursor_position = none) :
    rts_camera_system_step ops time (some w) scroll keyboard zoom_s pan_s turn_s st tr
      = some (st, tr) := by
  simp [rts_camera_system_step, h]

/-- C4 witness: the skip at a concrete cursorless window. -/
theorem missing_cursor_skips_update_witness :
    rts_camera_system_step ops1 timeC (some ⟨800, 600, none⟩) none kbNone none none none
        RtsCamera.default ⟨Quat.identity, Vec3.zero⟩
      = some (RtsCamera.default, ⟨Quat.identity, Vec3.zero⟩) :=
  missing_cursor_skips_update ops1 timeC ⟨800, 600, none⟩ none kbNone none none none
    RtsCamera.default ⟨Quat.identity, Vec3.zero⟩ rfl

/-- C7: the velocity-clamping step caps `zoom_velocity` only from above:
it computes `min zoom_velocity max_velocity`, so any value at most
`max_velocity` (including arbitrarily negative inward speeds) is left
unchanged and any value above it becomes exactly `max_velocity`. -/
theorem zoom_velocity_cap_asymmetric (ops : NumOps) (zoom : ZoomSettings)
    (pan : PanSettings) (turn : TurnSettings) (st : RtsCamera) :
    (clamp_velocities ops zoom pan turn st).zoom_velocity
        = min st.zoom_velocity zoom.max_velocity ∧
    (st.zoom_velocity ≤ zoom.max_velocity →
      (clamp_velocities ops zoom pan turn st).zoom_velocity = st.zoom_velocity) ∧
    (zoom.max_velocity < st.zoom_velocity →
      (clamp_velocities ops zoom pan turn st).zoom_velocity = zoom.max_velocity) := by
  refine ⟨rfl, fun h => ?_, fun h => ?_⟩
  · simp [min_eq_left h]
  · simp [min_eq_right (le_of_lt h)]

/-- C7 witness: the spec scenario `zoom_velocity = -3`, `max_velocity = 5`
is left unchanged by the clamping step. -/
theorem zoom_velocity_cap_asymmetric_witness :
    (clamp_velocities ops1 ZoomSettings.new PanSettings.new TurnSettings.new camNeg3).zoom_velocity
      = -3 := by
  have h := (zoom_velocity_cap_asymmetric ops1 ZoomSettings.new PanSettings.new
    TurnSettings.new camNeg3).2.1 (by norm_num [camNeg3, RtsCamera.default, ZoomSettings.new])
  simpa [camNeg3, RtsCamera.default] using h

/-- C9: the numeric edge cases of the update are guarded: deceleration at
exactly zero velocity is a no-op (no `signum` of zero is taken), a pan
velocity whose squared length is within `max_speed²` (the zero vector
included) is never normalized, and with a primary window present the
per-frame system pass is total. -/
theorem numeric_edge_guards :
    (∀ (d : Deceleration) (mag delta : ℚ), Deceleration.apply d 0 mag delta = 0) ∧
    (∀ (ops : NumOps) (pan : PanSettings) (v : Vec2),
      v.length_squared ≤ pan.max_speed * pan.max_speed →
      clamp_pan_velocity ops pan v = v) ∧
    (∀ (ops : NumOps) (time : Time) (w : Window) (scroll : Option ℚ)
      (keyboard : KeyCode → Bool) (zoom_s : Option ZoomSettings)
      (pan_s : Option PanSettings) (turn_s : Option TurnSettings)
      (st : RtsCamera) (tr : Transform),
      (rts_camera_system_step ops time (some w) scroll keyboard zoom_s pan_s turn_s st tr).isSome
        = true) := by
  refine ⟨fun d mag delta => decel_apply_zero d mag delta,
    fun ops pan v h => ?_, fun ops time w scroll kb zs ps ts st tr => ?_⟩
  · unfold clamp_pan_velocity
    rw [if_neg (not_lt.mpr h)]
  · cases hcp : w.cursor_position <;> simp [rts_camera_system_step, hcp]

/-- C9 witness: the guards at concrete inputs — zero velocity, a pan
velocity of squared length exactly `max_speed²`, and a present window. -/
theorem numeric_edge_guards_witness :
    Deceleration.apply ⟨true, true⟩ 0 5 1 = 0 ∧
    clamp_pan_velocity ops1 PanSettings.new ⟨3, 4⟩ = ⟨3, 4⟩ ∧
    (rts_camera_system_step ops1 timeC (some winC) none kbNone none none none
        RtsCamera.default ⟨Quat.identity, Vec3.zero⟩).isSome = true :=
  ⟨numeric_edge_guards.1 ⟨true, true⟩ 5 1,
   numeric_edge_guards.2.1 ops1 PanSettings.new ⟨3, 4⟩
     (by norm_num [Vec2.length_squared, PanSettings.new]),
   numeric_edge_guards.2.2 ops1 timeC winC none kbNone none none none
     RtsCamera.default ⟨Quat.identity, Vec3.zero⟩⟩

/-- C10: with exactly one deceleration flag set the step applies a
fixed-sign change of magnitude `min |idle_deceleration * delta| |v|`:
negative when only `pos` is set, positive when only `neg` is set; hence
a positive velocity with only the `neg` flag set strictly grows, by up
to a factor of two in one frame (`apply ⟨false, true⟩ 1 5 1 = 2`). -/
theorem decel_single_flag_fixed_sign (v mag delta : ℚ) :
    (v ≠ 0 → Deceleration.apply ⟨true, false⟩ v mag delta = v - min |mag * delta| |v|) ∧
    (v ≠ 0 → Deceleration.apply ⟨false, true⟩ v mag delta = v + min |mag * delta| |v|) ∧
    (0 < v → mag * delta ≠ 0 → v < Deceleration.apply ⟨false, true⟩ v mag delta) ∧
    (0 < v → Deceleration.apply ⟨false, true⟩ v mag delta ≤ 2 * v) ∧
    Deceleration.apply ⟨false, true⟩ 1 5 1 = 2 := by
  refine ⟨fun hv => ?_, fun hv => ?_, fun hv hmd => ?_, fun hv => ?_, ?_⟩
  · rw [decel_apply_pos_only v mag delta hv]; ring
  · rw [decel_apply_neg_only v mag delta hv]; ring
  · rw [decel_apply_neg_only v mag delta (ne_of_gt hv)]
    have h1 : 0 < min |mag * delta| |v| := lt_min (abs_pos.mpr hmd) (abs_pos.mpr (ne_of_gt hv))
    nlinarith
  · rw [decel_apply_neg_only v mag delta (ne_of_gt hv)]
    have h2 : min |mag * delta| |v| ≤ v :=
      le_trans (min_le_right _ _) (le_of_eq (abs_of_pos hv))
    nlinarith
  · norm_num [Deceleration.apply, signum]

/-- C10 witness: with `idle_deceleration * delta = 1` and velocity `3`,
the pos-only flag decreases it to `2` and the neg-only flag grows it
to `4`. -/
theorem decel_single_flag_fixed_sign_witness :
    Deceleration.apply ⟨true, false⟩ 3 1 1 = 2 ∧
    Deceleration.apply ⟨false, true⟩ 3 1 1 = 4 := by
  constructor
  · have h := (decel_single_flag_fixed_sign 3 1 1).1 (by norm_num)
    rw [h]; norm_num
  · have h := (decel_single_flag_fixed_sign 3 1 1).2.1 (by norm_num)
    rw [h]; norm_num

/-- C2: when both deceleration flags for an axis are still set (no
active input cleared either one) the per-frame deceleration is exact:
zero velocity stays exactly zero, a nonzero velocity loses exactly
`min |idle_deceleration * delta| |v|` of magnitude, never flips sign,
and shrinks strictly whenever `idle_deceleration * delta` is nonzero. -/
theorem decel_both_flags_shrinks_velocity (v mag delta : ℚ) :
    Deceleration.apply ⟨true, true⟩ 0 mag delta = 0 ∧
    (v ≠ 0 → |Deceleration.apply ⟨true, true⟩ v mag delta| = |v| - min |mag * delta| |v|) ∧
    (v ≠ 0 → 0 ≤ Deceleration.apply ⟨true, true⟩ v mag delta * v) ∧
    (v ≠ 0 → mag * delta ≠ 0 → |Deceleration.apply ⟨true, true⟩ v mag delta| < |v|) := by
  refine ⟨decel_apply_zero _ _ _, fun hv => decel_both_abs v mag delta hv,
    fun hv => ?_, fun hv hmd => ?_⟩
  · rcases lt_or_gt_of_ne hv with hneg | hpos
    · have h1 : |v| = -v := abs_of_neg hneg
      have h2 : min |mag * delta| |v| ≤ -v := le_trans (min_le_right _ _) (le_of_eq h1)
      rw [decel_both_neg v mag delta hneg]
      have h3 : v + min |mag * delta| |v| ≤ 0 := by linarith
      nlinarith
    · have h1 : |v| = v := abs_of_pos hpos
      have h2 : min |mag * delta| |v| ≤ v := le_trans (min_le_right _ _) (le_of_eq h1)
      rw [decel_both_pos v mag delta hpos]
      nlinarith
  · rw [decel_both_abs v mag delta hv]
    have h1 : 0 < min |mag * delta| |v| := lt_min (abs_pos.mpr hmd) (abs_pos.mpr hv)
    linarith

/-- C2 witness: velocity `3` with `idle_deceleration * delta = 1` loses
exactly `1` of magnitude, keeps its sign, and shrinks strictly. -/
theorem decel_both_flags_shrinks_velocity_witness :
    Deceleration.apply ⟨true, true⟩ 0 1 1 = 0 ∧
    |Deceleration.apply ⟨true, true⟩ 3 1 1| = |(3 : ℚ)| - min |(1 : ℚ) * 1| |(3 : ℚ)| ∧
    0 ≤ Deceleration.apply ⟨true, true⟩ 3 1 1 * 3 ∧
    |Deceleration.apply ⟨true, true⟩ 3 1 1| < |(3 : ℚ)| := by
  have h := decel_both_flags_shrinks_velocity 3 1 1
  exact ⟨h.1, h.2.1 (by norm_num), h.2.2.1 (by norm_num), h.2.2.2 (by norm_num) (by norm_num)⟩

/-- C5 (amended): in the turn-integration step, a post-sum yaw above
`TAU` is wrapped by subtracting exactly `TAU`, and a post-sum yaw below
`0` by adding exactly `TAU`; the result lies in `[0, TAU)` provided the
sum stays within one extra turn (below `2 * TAU`, respectively at least
`-TAU`). -/
theorem yaw_wrap_exact_single_turn (ops : NumOps) (st : RtsCamera) (angle : ℚ) :
    (TAU < st.yaw + angle → (rotate ops angle st).yaw = st.yaw + angle - TAU) ∧
    (TAU < st.yaw + angle → st.yaw + angle < 2 * TAU →
      0 ≤ (rotate ops angle st).yaw ∧ (rotate ops angle st).yaw < TAU) ∧
    (st.yaw + angle < 0 → (rotate ops angle st).yaw = st.yaw + angle + TAU) ∧
    (-TAU ≤ st.yaw + angle → st.yaw + angle < 0 →
      0 ≤ (rotate ops angle st).yaw ∧ (rotate ops angle st).yaw < TAU) := by
  have ht := tau_pos
  simp only [rotate_yaw, wrap_yaw]
  refine ⟨fun h1 => ?_, fun h1 h2 => ?_, fun h1 => ?_, fun h1 h2 => ?_⟩
  · rw [if_pos h1, if_neg (show ¬(st.yaw + angle - TAU < 0) by linarith)]
  · rw [if_pos h1, if_neg (show ¬(st.yaw + angle - TAU < 0) by linarith)]
    constructor <;> linarith
  · rw [if_neg (show ¬(st.yaw + angle > TAU) by linarith), if_pos h1]
  · rw [if_neg (show ¬(st.yaw + angle > TAU) by linarith), if_pos h2]
    constructor <;> linarith

/-- C5 witness: yaw `6` turned by `1` exceeds `TAU`, wraps to exactly
`7 - TAU`, and lands inside `[0, TAU)`. -/
theorem yaw_wrap_exact_single_turn_witness :
    (rotate ops1 1 cam6).yaw = 6 + 1 - TAU ∧
    0 ≤ (rotate ops1 1 cam6).yaw ∧ (rotate ops1 1 cam6).yaw < TAU := by
  have h := yaw_wrap_exact_single_turn ops1 cam6 1
  have h1 : TAU < cam6.yaw + 1 := by norm_num [cam6, RtsCamera.default, TAU]
  have h2 : cam6.yaw + 1 < 2 * TAU := by norm_num [cam6, RtsCamera.default, TAU]
  refine ⟨?_, (h.2.1 h1 h2).1, (h.2.1 h1 h2).2⟩
  have h3 := h.1 h1
  simpa [cam6, RtsCamera.default] using h3

/-- C5 counterexample: the claim's universal "wrapped into `[0, 2π)`"
fails beyond one extra turn — from yaw `3 * TAU` with no turn velocity,
the single subtraction leaves `2 * TAU`, which is not below `TAU`. -/
theorem yaw_wrap_beyond_single_turn_cex :
    (rotate ops1 0 cam3Tau).yaw = 2 * TAU ∧ ¬((rotate ops1 0 cam3Tau).yaw < TAU) := by
  constructor <;>
    norm_num [rotate_yaw, wrap_yaw, cam3Tau, RtsCamera.default, TAU]

/-- C6 (amended): after every update the orientation is the
yaw-then-pitch rotation whose pitch is the negated zone-interpolation of
the updated `zoom_distance` from `angle_change_zone` into `angle_range`
(roll `0`); in the spec's scenario (`zoom_distance = 50`,
`angle_change_zone = [5, 100]`, `angle_range = [0.57, 1.16]`) the pitch
magnitude is exactly `807/950 ≈ 0.8495` rad. -/
theorem orientation_pitch_from_zoom (ops : NumOps) (scroll : Option ℚ) (cursor : Vec2)
    (window : Window) (keyboard : KeyCode → Bool) (zoom : ZoomSettings)
    (pan : PanSettings) (turn : TurnSettings) (time : Time) (st : RtsCamera) :
    (tick ops scroll cursor window keyboard zoom pan turn time st).rotation
      = Quat.from_rotation_ypr
          (tick ops scroll cursor window keyboard zoom pan turn time st).yaw
          (-(lerp_in_zone
              (tick ops scroll cursor window keyboard zoom pan turn time st).zoom_distance
              zoom.angle_change_zone zoom.angle_range)) 0 ∧
    (tick ops1 none ⟨100, 100⟩ winC kbNone zoomC6 PanSettings.new TurnSettings.new
        timeC cam50).rotation.pitch = -(807 / 950) := by
  constructor
  · simp [tick, tick_before_pan]
  · norm_num [tick, tick_before_pan, update_orientation, apply_turn, apply_zoom,
      clamp_velocities, apply_deceleration, post_decel, accumulate, rotate, wrap_yaw,
      clamp, lerp_in_zone, clamp_pan_velocity, Vec2.length_squared, Deceleration.apply,
      signum, ops1, zoomC6, cam50, kbNone, winC, timeC, ZoomSettings.new,
      PanSettings.new, TurnSettings.new, RtsCamera.default, TAU, SCROLL_TICK_GRACE_SECS,
      Quat.from_rotation_ypr, Quat.from_rotation_y, Vec2.zero, Vec3.zero, Quat.identity]

/-- C6 counterexample: the spec's numeric approximation is wrong — the
scenario's interpolated pitch is `807/950 = 0.84947…`, which differs
from the claimed `0.8536` by more than `0.001`. -/
theorem pitch_scenario_approximation_cex :
    lerp_in_zone 50 ⟨5, 100⟩ ⟨57 / 100, 116 / 100⟩ = 807 / 950 ∧
    (8536 / 10000 : ℚ) - lerp_in_zone 50 ⟨5, 100⟩ ⟨57 / 100, 116 / 100⟩ > 1 / 1000 := by
  constructor <;> norm_num [lerp_in_zone, clamp]

/-- C3: on a scroll-free frame inside the grace window
(`now - last_scroll_sec < 0.05`) both zoom deceleration flags are
cleared, so the deceleration pass leaves the accumulated zoom velocity
untouched; once the window has passed (and no zoom key interferes) the
flags are both set again and the idle deceleration applies. -/
theorem scroll_grace_window (cursor : Vec2) (window : Window) (keyboard : KeyCode → Bool)
    (zoom : ZoomSettings) (pan : PanSettings) (turn : TurnSettings)
    (delta now : ℚ) (st : RtsCamera) :
    (now - st.last_scroll_sec < SCROLL_TICK_GRACE_SECS →
      (accumulate none cursor window keyboard zoom pan turn delta now st).zoom_decel
          = ⟨false, false⟩ ∧
      (apply_deceleration zoom pan turn delta
          (accumulate none cursor window keyboard zoom pan turn delta now st)).zoom_velocity
        = (accumulate none cursor window keyboard zoom pan turn delta now st).st.zoom_velocity) ∧
    (SCROLL_TICK_GRACE_SECS ≤ now - st.last_scroll_sec →
      zoom.zoom_in_keys.any keyboard = false →
      zoom.zoom_out_keys.any keyboard = false →
      (accumulate none cursor window keyboard zoom pan turn delta now st).zoom_decel
          = ⟨true, true⟩ ∧
      (apply_deceleration zoom pan turn delta
          (accumulate none cursor window keyboard zoom pan turn delta now st)).zoom_velocity
        = Deceleration.apply ⟨true, true⟩ st.zoom_velocity zoom.idle_deceleration delta) := by
  constructor
  · intro hg
    have hflag : (accumulate none cursor window keyboard zoom pan turn delta now st).zoom_decel
        = ⟨false, false⟩ := by
      cases hzi : zoom.zoom_in_keys.any keyboard <;>
        cases hzo : zoom.zoom_out_keys.any keyboard <;>
          simp [accumulate, hg, hzi, hzo]
    refine ⟨hflag, ?_⟩
    rw [apply_deceleration_zoom_velocity, hflag, decel_apply_none]
  · intro hg hin hout
    have hng : ¬(now - st.last_scroll_sec < SCROLL_TICK_GRACE_SECS) := not_lt.mpr hg
    have hflag : (accumulate none cursor window keyboard zoom pan turn delta now st).zoom_decel
        = ⟨true, true⟩ := by
      simp [accumulate, hng, hin, hout]
    have hzv : (accumulate none cursor window keyboard zoom pan turn delta now st).st.zoom_velocity
        = st.zoom_velocity := by
      simp [accumulate, hin, hout]
    refine ⟨hflag, ?_⟩
    rw [apply_deceleration_zoom_velocity, hflag, hzv]

/-- C3 witness: with the last scroll at `0.98s` and the clock at `1s`
the zoom flags are both cleared; with the last scroll at `0s` they are
both set again. -/
theorem scroll_grace_window_witness :
    (accumulate none ⟨100, 100⟩ winC kbNone ZoomSettings.new PanSettings.new TurnSettings.new
        (1 / 100) 1 camScroll).zoom_decel = ⟨false, false⟩ ∧
    (accumulate none ⟨100, 100⟩ winC kbNone ZoomSettings.new PanSettings.new TurnSettings.new
        (1 / 100) 1 RtsCamera.default).zoom_decel = ⟨true, true⟩ := by
  constructor
  · exact ((scroll_grace_window ⟨100, 100⟩ winC kbNone ZoomSettings.new PanSettings.new
      TurnSettings.new (1 / 100) 1 camScroll).1
        (by norm_num [camScroll, RtsCamera.default, SCROLL_TICK_GRACE_SECS])).1
  · exact ((scroll_grace_window ⟨100, 100⟩ winC kbNone ZoomSettings.new PanSettings.new
      TurnSettings.new (1 / 100) 1 RtsCamera.default).2
        (by norm_num [RtsCamera.default, SCROLL_TICK_GRACE_SECS])
        (by simp [ZoomSettings.new, kbNone])
        (by simp [ZoomSettings.new, kbNone])).1

/-- C8: the pan-integration step moves the focus by exactly the
(post-clamp) pan velocity, taken as camera-local x = right and
y = forward-on-ground, rotated about the vertical axis by the updated
yaw only, and scaled by `delta_time` times the zone-interpolation of the
updated `zoom_distance` from `angle_range` into
`pan_speed_zoom_factor_range`. -/
theorem pan_moves_focus_by_rotated_velocity (ops : NumOps) (scroll : Option ℚ)
    (cursor : Vec2) (window : Window) (keyboard : KeyCode → Bool) (zoom : ZoomSettings)
    (pan : PanSettings) (turn : TurnSettings) (time : Time) (st : RtsCamera)
    (hc : ops.cos 0 = 1) (hs : ops.sin 0 = 0) :
    (tick ops scroll cursor window keyboard zoom pan turn time st).looking_at
      = Vec3.add
          (tick_before_pan ops scroll cursor window keyboard zoom pan turn time st).looking_at
          (Vec3.smul
            (time.delta_seconds *
              lerp_in_zone
                (tick_before_pan ops scroll cursor window keyboard zoom pan turn time st).zoom_distance
                zoom.angle_range pan.pan_speed_zoom_factor_range)
            (rot_y ops
              (tick_before_pan ops scroll cursor window keyboard zoom pan turn time st).yaw
              ⟨(tick_before_pan ops scroll cursor window keyboard zoom pan turn time st).pan_velocity.x,
                0,
                -(tick_before_pan ops scroll cursor window keyboard zoom pan turn time st).pan_velocity.y⟩)) := by
  have hm : ∀ w : Vec3,
      Quat.mul_vec3 ops
        (Quat.from_rotation_y
          (tick_before_pan ops scroll cursor window keyboard zoom pan turn time st).yaw) w
        = rot_y ops (tick_before_pan ops scroll cursor window keyboard zoom pan turn time st).yaw w :=
    fun w => mul_vec3_from_rotation_y ops _ w hc hs
  show (apply_pan ops zoom pan time.delta_seconds
    (tick_before_pan ops scroll cursor window keyboard zoom pan turn time st)).looking_at = _
  simp only [apply_pan, hm]
  ext <;> simp [rot_y, Vec3.add, Vec3.smul, Vec3.neg, Vec3.unit_x, Vec3.unit_z] <;> ring

/-- C8 witness: the pan-integration identity at the all-idle fixture,
whose `NumOps` instance satisfies `cos 0 = 1` and `sin 0 = 0`. -/
theorem pan_moves_focus_by_rotated_velocity_witness :
    (tick ops1 none ⟨100, 100⟩ winC kbNone ZoomSettings.new PanSettings.new TurnSettings.new
        timeC RtsCamera.default).looking_at
      = Vec3.add
          (tick_before_pan ops1 none ⟨100, 100⟩ winC kbNone ZoomSettings.new PanSettings.new
            TurnSettings.new timeC RtsCamera.default).looking_at
          (Vec3.smul
            (timeC.delta_seconds *
              lerp_in_zone
                (tick_before_pan ops1 none ⟨100, 100⟩ winC kbNone ZoomSettings.new PanSettings.new
                  TurnSettings.new timeC RtsCamera.default).zoom_distance
                ZoomSettings.new.angle_range PanSettings.new.pan_speed_zoom_factor_range)
            (rot_y ops1
              (tick_before_pan ops1 none ⟨100, 100⟩ winC kbNone ZoomSettings.new PanSettings.new
                TurnSettings.new timeC RtsCamera.default).yaw
              ⟨(tick_before_pan ops1 none ⟨100, 100⟩ winC kbNone ZoomSettings.new PanSettings.new
                  TurnSettings.new timeC RtsCamera.default).pan_velocity.x,
                0,
                -(tick_before_pan ops1 none ⟨100, 100⟩ winC kbNone ZoomSettings.new PanSettings.new
                  TurnSettings.new timeC RtsCamera.default).pan_velocity.y⟩)) :=
  pan_moves_focus_by_rotated_velocity ops1 none ⟨100, 100⟩ winC kbNone ZoomSettings.new
    PanSettings.new TurnSettings.new timeC RtsCamera.default rfl rfl

/-- C1 (amended): after every update on which it runs, `tick` leaves
`zoom_distance` inside `distance_range`, the yaw inside `yaw_range` and
inside the closed interval `[0, TAU]` (the endpoint `TAU` is attainable
because the wrap subtracts only for sums strictly above `TAU`), the pan
velocity's squared length at most `max_speed²`, `zoom_velocity` at most
`max_velocity` and `|turn_velocity|` at most `turn.max_speed` — under
well-formedness hypotheses on the configured ranges and an exact square
root at the one point where the pan velocity is rescaled. -/
theorem tick_clamping_invariants (ops : NumOps) (scroll : Option ℚ) (cursor : Vec2)
    (window : Window) (keyboard : KeyCode → Bool) (zoom : ZoomSettings)
    (pan : PanSettings) (turn : TurnSettings) (time : Time) (st : RtsCamera)
    (hd : zoom.distance_range.start ≤ zoom.distance_range.stop)
    (hy0 : 0 ≤ turn.yaw_range.start)
    (hy1 : turn.yaw_range.start ≤ turn.yaw_range.stop)
    (hy2 : turn.yaw_range.stop ≤ TAU)
    (hm : 0 ≤ turn.max_speed)
    (hsq : (post_decel scroll cursor window keyboard zoom pan turn time st).pan_velocity.length_squared
             ≤ pan.max_speed * pan.max_speed ∨
           (0 < ops.sqrt (post_decel scroll cursor window keyboard zoom pan turn time st).pan_velocity.length_squared ∧
            ops.sqrt (post_decel scroll cursor window keyboard zoom pan turn time st).pan_velocity.length_squared *
              ops.sqrt (post_decel scroll cursor window keyboard zoom pan turn time st).pan_velocity.length_squared
              = (post_decel scroll cursor window keyboard zoom pan turn time st).pan_velocity.length_squared)) :
    (zoom.distance_range.start
        ≤ (tick ops scroll cursor window keyboard zoom pan turn time st).zoom_distance ∧
      (tick ops scroll cursor window keyboard zoom pan turn time st).zoom_distance
        ≤ zoom.distance_range.stop) ∧
    (turn.yaw_range.start ≤ (tick ops scroll cursor window keyboard zoom pan turn time st).yaw ∧
      (tick ops scroll cursor window keyboard zoom pan turn time st).yaw ≤ turn.yaw_range.stop ∧
      0 ≤ (tick ops scroll cursor window keyboard zoom pan turn time st).yaw ∧
      (tick ops scroll cursor window keyboard zoom pan turn time st).yaw ≤ TAU) ∧
    (tick ops scroll cursor window keyboard zoom pan turn time st).pan_velocity.length_squared
        ≤ pan.max_speed * pan.max_speed ∧
    (tick ops scroll cursor window keyboard zoom pan turn time st).zoom_velocity
        ≤ zoom.max_velocity ∧
    |(tick ops scroll cursor window keyboard zoom pan turn time st).turn_velocity|
        ≤ turn.max_speed := by
  have ezd : (tick ops scroll cursor window keyboard zoom pan turn time st).zoom_distance
      = clamp (st.zoom_distance +
          min (post_decel scroll cursor window keyboard zoom pan turn time st).zoom_velocity
            zoom.max_velocity * time.delta_seconds) zoom.distance_range := by
    simp [tick, tick_before_pan]
  have eyaw : (tick ops scroll cursor window keyboard zoom pan turn time st).yaw
      = clamp (wrap_yaw (st.yaw +
          clamp (post_decel scroll cursor window keyboard zoom pan turn time st).turn_velocity
            ⟨-turn.max_speed, turn.max_speed⟩ * time.delta_seconds)) turn.yaw_range := by
    simp [tick, tick_before_pan]
  have epan : (tick ops scroll cursor window keyboard zoom pan turn time st).pan_velocity
      = clamp_pan_velocity ops pan
          (post_decel scroll cursor window keyboard zoom pan turn time st).pan_velocity := by
    simp [tick, tick_before_pan]
  have ezv : (tick ops scroll cursor window keyboard zoom pan turn time st).zoom_velocity
      = min (post_decel scroll cursor window keyboard zoom pan turn time st).zoom_velocity
          zoom.max_velocity := by
    simp [tick, tick_before_pan]
  have etv : (tick ops scroll cursor window keyboard zoom pan turn time st).turn_velocity
      = clamp (post_decel scroll cursor window keyboard zoom pan turn time st).turn_velocity
          ⟨-turn.max_speed, turn.max_speed⟩ := by
    simp [tick, tick_before_pan]
  refine ⟨?_, ?_, ?_, ?_, ?_⟩
  · rw [ezd]
    exact clamp_mem _ _ hd
  · rw [eyaw]
    have hcm := clamp_mem (wrap_yaw (st.yaw +
      clamp (post_decel scroll cursor window keyboard zoom pan turn time st).turn_velocity
        ⟨-turn.max_speed, turn.max_speed⟩ * time.delta_seconds)) turn.yaw_range hy1
    exact ⟨hcm.1, hcm.2, le_trans hy0 hcm.1, le_trans hcm.2 hy2⟩
  · rw [epan]
    exact clamp_pan_velocity_lsq_le ops pan _ hsq
  · rw [ezv]
    exact min_le_right _ _
  · rw [etv]
    exact abs_clamp_le _ _ hm

/-- C1 witness: the invariants at the all-idle default-settings fixture;
the pan velocity needs no rescale there, so the square-root hypothesis
holds by its left disjunct. -/
theorem tick_clamping_invariants_witness :
    (ZoomSettings.new.distance_range.start
        ≤ (tick ops1 none ⟨100, 100⟩ winC kbNone ZoomSettings.new PanSettings.new TurnSettings.new
            timeC RtsCamera.default).zoom_distance ∧
      (tick ops1 none ⟨100, 100⟩ winC kbNone ZoomSettings.new PanSettings.new TurnSettings.new
          timeC RtsCamera.default).zoom_distance ≤ ZoomSettings.new.distance_range.stop) ∧
    (TurnSettings.new.yaw_range.start
        ≤ (tick ops1 none ⟨100, 100⟩ winC kbNone ZoomSettings.new PanSettings.new TurnSettings.new
            timeC RtsCamera.default).yaw ∧
      (tick ops1 none ⟨100, 100⟩ winC kbNone ZoomSettings.new PanSettings.new TurnSettings.new
          timeC RtsCamera.default).yaw ≤ TurnSettings.new.yaw_range.stop ∧
      0 ≤ (tick ops1 none ⟨100, 100⟩ winC kbNone ZoomSettings.new PanSettings.new TurnSettings.new
          timeC RtsCamera.default).yaw ∧
      (tick ops1 none ⟨100, 100⟩ winC kbNone ZoomSettings.new PanSettings.new TurnSettings.new
          timeC RtsCamera.default).yaw ≤ TAU) ∧
    (tick ops1 none ⟨100, 100⟩ winC kbNone ZoomSettings.new PanSettings.new TurnSettings.new
        timeC RtsCamera.default).pan_velocity.length_squared
        ≤ PanSettings.new.max_speed * PanSettings.new.max_speed ∧
    (tick ops1 none ⟨100, 100⟩ winC kbNone ZoomSettings.new PanSettings.new TurnSettings.new
        timeC RtsCamera.default).zoom_velocity ≤ ZoomSettings.new.max_velocity ∧
    |(tick ops1 none ⟨100, 100⟩ winC kbNone ZoomSettings.new PanSettings.new TurnSettings.new
        timeC RtsCamera.default).turn_velocity| ≤ TurnSettings.new.max_speed :=
  tick_clamping_invariants ops1 none ⟨100, 100⟩ winC kbNone ZoomSettings.new PanSettings.new
    TurnSettings.new timeC RtsCamera.default
    (by norm_num [ZoomSettings.new])
    (by norm_num [TurnSettings.new])
    (by norm_num [TurnSettings.new, TAU])
    (by norm_num [TurnSettings.new])
    (by norm_num [TurnSettings.new])
    (Or.inl (by norm_num [post_decel, apply_deceleration, accumulate, Deceleration.apply,
      signum, Vec2.length_squared, kbNone, winC, timeC, ZoomSettings.new, PanSettings.new,
      TurnSettings.new, RtsCamera.default, SCROLL_TICK_GRACE_SECS, Vec2.zero, Vec3.zero,
      Quat.identity, TAU]))

/-- C1 counterexample: the claim's half-open bound `yaw ∈ [0, 2π)` fails
on the code — starting from yaw exactly `TAU` with everything idle, the
update returns yaw exactly `TAU`, which is not below `TAU`. -/
theorem tick_yaw_can_equal_tau_cex :
    (tick ops1 none ⟨100, 100⟩ winC kbNone ZoomSettings.new PanSettings.new TurnSettings.new
        timeC camTau).yaw = TAU ∧
    ¬((tick ops1 none ⟨100, 100⟩ winC kbNone ZoomSettings.new PanSettings.new TurnSettings.new
        timeC camTau).yaw < TAU) := by
  have h : (tick ops1 none ⟨100, 100⟩ winC kbNone ZoomSettings.new PanSettings.new
      TurnSettings.new timeC camTau).yaw = TAU := by
    norm_num [tick, tick_before_pan, update_orientation, apply_turn, apply_zoom,
      clamp_velocities, apply_deceleration, post_decel, accumulate, rotate, wrap_yaw,
      clamp, lerp_in_zone, clamp_pan_velocity, Vec2.length_squared, Deceleration.apply,
      signum, ops1, camTau, kbNone, winC, timeC, ZoomSettings.new, PanSettings.new,
      TurnSettings.new, RtsCamera.default, TAU, SCROLL_TICK_GRACE_SECS, Vec2.zero,
      Vec3.zero, Quat.identity]
  exact ⟨h, by rw [h]; exact lt_irrefl TAU⟩

end Goshawk
